import Mathlib

/-!
Verification development for the `seng550_a3-etl` pipeline.

The definitions below are a shallow embedding of the Python/SQL source:

* `etl.py`: `geojson_to_wkt` (geometry normalizer), `json_to_dataframe`
  (record flattener), `fetch_data_from_api` (source fetch).
* `queries.py`: the `update_acc_fact_data` upsert statement (fact-table
  synchronizer) and its spatial/temporal join `SELECT`.

Python values are modelled by the JSON-like type `JVal`; Python exceptions
(`TypeError`, `IndexError`, `AttributeError`) are modelled by `Except`
errors; SQL relations are modelled by Lean lists of rows.
-/

set_option autoImplicit false

namespace ETL

/-- JSON-like values, modelling the Python values flowing through `etl.py`.
Numeric literals are carried as their rendered text (`jnum s`), because the
source only ever moves numbers into strings verbatim via interpolation. -/
inductive JVal where
  | jnull
  | jbool (b : Bool)
  | jnum (s : String)
  | jstr (s : String)
  | jarr (elems : List JVal)
  | jobj (fields : List (String × JVal))

/-- Python `d.get(k)` on a dict modelled as an association list
(keys unique, insertion order preserved, as in a Python dict). -/
def dictGet (d : List (String × JVal)) (k : String) : Option JVal :=
  (d.find? (fun kv => kv.1 == k)).map (fun kv => kv.2)

/-- Python truthiness of a `JVal` (`bool(v)`).  For numbers, which the model
carries as rendered literals, only the literal renderings of zero are falsy;
the source never branches on numeric truthiness. -/
def truthy : JVal → Bool
  | .jnull => false
  | .jbool b => b
  | .jnum s => !(s == "0" || s == "0.0")
  | .jstr s => !(s == "")
  | .jarr xs => !xs.isEmpty
  | .jobj fs => !fs.isEmpty

/-- Extract a string value; `v == 'Point'` in Python is true exactly when
`v` is that string (comparison with any non-string is simply false). -/
def strVal : Option JVal → Option String
  | some (.jstr s) => some s
  | _ => none

mutual

/-- Rendering used by Python string interpolation on the values the source
interpolates (coordinate numbers). Nested-container quoting is abstracted. -/
def pyStr : JVal → String
  | .jnull => "None"
  | .jbool true => "True"
  | .jbool false => "False"
  | .jnum s => s
  | .jstr s => s
  | .jarr xs => "[" ++ String.intercalate ", " (pyStrList xs) ++ "]"
  | .jobj fs => "\x7b" ++ String.intercalate ", " (pyStrFields fs) ++ "\x7d"

def pyStrList : List JVal → List String
  | [] => []
  | x :: xs => pyStr x :: pyStrList xs

def pyStrFields : List (String × JVal) → List String
  | [] => []
  | kv :: fs => (kv.1 ++ ": " ++ pyStr kv.2) :: pyStrFields fs

end

mutual

/-- Python `json.dumps` with its default separators; string escaping is
abstracted (the source only dumps values it then stores as plain text). -/
def jsonDumps : JVal → String
  | .jnull => "null"
  | .jbool true => "true"
  | .jbool false => "false"
  | .jnum s => s
  | .jstr s => "\"" ++ s ++ "\""
  | .jarr xs => "[" ++ String.intercalate ", " (jsonDumpsList xs) ++ "]"
  | .jobj fs => "\x7b" ++ String.intercalate ", " (jsonDumpsFields fs) ++ "\x7d"

def jsonDumpsList : List JVal → List String
  | [] => []
  | x :: xs => jsonDumps x :: jsonDumpsList xs

def jsonDumpsFields : List (String × JVal) → List String
  | [] => []
  | kv :: fs => ("\"" ++ kv.1 ++ "\": " ++ jsonDumps kv.2) :: jsonDumpsFields fs

end

/-- The interpolation `f"\x7bpt[0]\x7d \x7bpt[1]\x7d"` from `geojson_to_wkt`:
subscripting a non-sequence raises `TypeError`, a short sequence raises
an `IndexError`. -/
def wktCoordPair : JVal → Except String String
  | .jarr (c0 :: c1 :: _) => .ok (pyStr c0 ++ " " ++ pyStr c1)
  | .jarr _ => .error "IndexError"
  | _ => .error "TypeError"

/-- Left-to-right effectful map, modelling a Python comprehension or loop
that aborts at the first raised exception. -/
def exMap (f : JVal → Except String String) : List JVal → Except String (List String)
  | [] => .ok []
  | x :: xs => do
    let s ← f x
    let ss ← exMap f xs
    return s :: ss

theorem ok_bind {α β : Type} (a : α) (f : α → Except String β) :
    (Except.ok a : Except String α) >>= f = f a := rfl

/-- One ring of a MultiPolygon: `', '.join([... for pt in ring])` wrapped in
parentheses (`etl.py` lines 124-126). -/
def wktRing : JVal → Except String String
  | .jarr pts => do
    let ss ← exMap wktCoordPair pts
    return "(" ++ String.intercalate ", " ss ++ ")"
  | _ => .error "TypeError"

/-- One polygon of a MultiPolygon: its rings joined and wrapped
(`etl.py` lines 122-127). -/
def wktPolygon : JVal → Except String String
  | .jarr rings => do
    let ss ← exMap wktRing rings
    return "(" ++ String.intercalate ", " ss ++ ")"
  | _ => .error "TypeError"

/-- Model of `geojson_to_wkt` (`etl.py` lines 108-130).  The argument is `None` or a
Python dict, as at every call site.  `if not geom` is true for `None` and
for the empty dict.  The `Point` branch reads `coords[0]`/`coords[1]`; the
`MultiPolygon` branch iterates polygons, rings and points in order; any
other (or missing) `type` falls through to `return None`. -/
def geojson_to_wkt : Option (List (String × JVal)) → Except String (Option String)
  | none => .ok none
  | some d =>
    if d.isEmpty then .ok none
    else if strVal (dictGet d "type") = some "Point" then
      match dictGet d "coordinates" with
      | some (.jarr (c0 :: c1 :: _)) =>
        .ok (some ("POINT(" ++ pyStr c0 ++ " " ++ pyStr c1 ++ ")"))
      | some (.jarr _) => .error "IndexError"
      | _ => .error "TypeError"
    else if strVal (dictGet d "type") = some "MultiPolygon" then
      match dictGet d "coordinates" with
      | some (.jarr polys) =>
        match exMap wktPolygon polys with
        | .ok ss => .ok (some ("MULTIPOLYGON(" ++ String.intercalate ", " ss ++ ")"))
        | .error e => .error e
      | _ => .error "TypeError"
    else .ok none

/-- Modelled from the spec: the canonical single-point WKT text form for a
coordinate pair `(x, y)` (spec section 4.1, "Point: coordinate pair
`(x, y)` → canonical single-point text form"). -/
def canonicalPointText (x y : String) : String :=
  "POINT(" ++ x ++ " " ++ y ++ ")"

/-- Modelled from the spec: the canonical multi-polygon WKT text form for an
ordered sequence of polygons, each an ordered sequence of rings, each an
ordered sequence of `(x, y)` pairs, preserving polygon, ring and point
order exactly (spec section 4.1). -/
def canonicalMPolyText (ps : List (List (List (String × String)))) : String :=
  "MULTIPOLYGON(" ++ String.intercalate ", "
    (ps.map (fun rings => "(" ++ String.intercalate ", "
      (rings.map (fun ring => "(" ++ String.intercalate ", "
        (ring.map (fun p => p.1 ++ " " ++ p.2)) ++ ")")) ++ ")")) ++ ")"

/-- Encode a structured multipolygon as the GeoJSON `coordinates` value the
source iterates: each point is its two leading components plus any extra
(dropped) components. -/
def mpEncode (ps : List (List (List (JVal × JVal × List JVal)))) : JVal :=
  .jarr (ps.map (fun rings => .jarr (rings.map (fun ring =>
    .jarr (ring.map (fun t => .jarr (t.1 :: t.2.1 :: t.2.2)))))))

/-- A minimal GeoJSON Point object with the given coordinate array. -/
def pointGeom (cs : List JVal) : Option (List (String × JVal)) :=
  some [("type", .jstr "Point"), ("coordinates", .jarr cs)]

/-- A minimal GeoJSON MultiPolygon object with the given coordinates. -/
def mpGeom (ps : List (List (List (JVal × JVal × List JVal)))) :
    Option (List (String × JVal)) :=
  some [("type", .jstr "MultiPolygon"), ("coordinates", mpEncode ps)]

/-- Numeric-pair multipolygon coordinates with no extra components. -/
def mpEncodeNum (ps : List (List (List (String × String)))) : JVal :=
  mpEncode (ps.map (fun poly => poly.map (fun ring =>
    ring.map (fun p => (JVal.jnum p.1, JVal.jnum p.2, ([] : List JVal))))))

theorem exMap_points_eval (ring : List (JVal × JVal × List JVal)) :
    exMap wktCoordPair (ring.map (fun t => JVal.jarr (t.1 :: t.2.1 :: t.2.2)))
      = .ok (ring.map (fun t => pyStr t.1 ++ " " ++ pyStr t.2.1)) := by
  induction ring with
  | nil => rfl
  | cons t ts ih =>
    simp only [List.map_cons, exMap, wktCoordPair, ih]
    rfl

theorem wktRing_eval (rings : List (List (JVal × JVal × List JVal))) :
    exMap wktRing (rings.map (fun ring =>
        JVal.jarr (ring.map (fun t => JVal.jarr (t.1 :: t.2.1 :: t.2.2)))))
      = .ok (rings.map (fun ring => "(" ++ String.intercalate ", "
          (ring.map (fun t => pyStr t.1 ++ " " ++ pyStr t.2.1)) ++ ")")) := by
  induction rings with
  | nil => rfl
  | cons r rs ih =>
    simp only [List.map_cons, exMap, wktRing, exMap_points_eval, ih]
    rfl

theorem wktPolygon_eval (ps : List (List (List (JVal × JVal × List JVal)))) :
    exMap wktPolygon (ps.map (fun rings =>
        JVal.jarr (rings.map (fun ring =>
          JVal.jarr (ring.map (fun t => JVal.jarr (t.1 :: t.2.1 :: t.2.2)))))))
      = .ok (ps.map (fun rings => "(" ++ String.intercalate ", "
          (rings.map (fun ring => "(" ++ String.intercalate ", "
            (ring.map (fun t => pyStr t.1 ++ " " ++ pyStr t.2.1)) ++ ")")) ++ ")")) := by
  induction ps with
  | nil => rfl
  | cons p ps ih =>
    simp only [List.map_cons, exMap, wktPolygon, wktRing_eval, ih]
    rfl

/-- Evaluation of the MultiPolygon branch on any encoded coordinates:
the output is the canonical text of the pairwise projection, in order. -/
theorem geojson_to_wkt_mp (d : List (String × JVal))
    (ps : List (List (List (JVal × JVal × List JVal))))
    (ht : strVal (dictGet d "type") = some "MultiPolygon")
    (hc : dictGet d "coordinates" = some (mpEncode ps)) :
    geojson_to_wkt (some d)
      = .ok (some (canonicalMPolyText
          (ps.map (fun poly => poly.map (fun ring =>
            ring.map (fun t => (pyStr t.1, pyStr t.2.1))))))) := by
  have hne : d.isEmpty = false := by
    cases d with
    | nil => simp [dictGet, strVal] at ht
    | cons kv tl => rfl
  have hnp : ¬ strVal (dictGet d "type") = some "Point" := by
    rw [ht]; simp
  simp only [geojson_to_wkt, hne, Bool.false_eq_true, if_false, hnp, ht, hc,
    if_pos, if_neg, mpEncode]
  rw [wktPolygon_eval]
  simp [canonicalMPolyText, List.map_map, Function.comp_def]

/-- Evaluation of the Point branch: first two coordinate components are
rendered, anything further is ignored. -/
theorem geojson_to_wkt_point (d : List (String × JVal)) (c0 c1 : JVal)
    (cs : List JVal)
    (ht : strVal (dictGet d "type") = some "Point")
    (hc : dictGet d "coordinates" = some (.jarr (c0 :: c1 :: cs))) :
    geojson_to_wkt (some d) = .ok (some (canonicalPointText (pyStr c0) (pyStr c1))) := by
  have hne : d.isEmpty = false := by
    cases d with
    | nil => simp [dictGet, strVal] at ht
    | cons kv tl => rfl
  simp only [geojson_to_wkt, hne, Bool.false_eq_true, if_false, ht, hc, if_pos]
  rfl

/-- Evaluation of the fall-through branch: a kind that is neither `Point`
nor `MultiPolygon` (including a missing or non-string kind) yields null. -/
theorem geojson_to_wkt_other (d : List (String × JVal))
    (hp : ¬ strVal (dictGet d "type") = some "Point")
    (hm : ¬ strVal (dictGet d "type") = some "MultiPolygon") :
    geojson_to_wkt (some d) = .ok none := by
  by_cases hne : d.isEmpty
  · simp [geojson_to_wkt, hne]
  · simp [geojson_to_wkt, hne, hp, hm]

/-- C6: the Geometry Normalizer maps a `Point` geometry with coordinate pair
`(x, y)` to the canonical single-point text form, a `MultiPolygon` geometry
to the canonical multi-polygon text form in exactly the input polygon, ring
and point order, and missing or other-kind geometry to null. -/
theorem c6_normalizer_cases :
    (∀ (d : List (String × JVal)) (c0 c1 : JVal) (cs : List JVal),
        strVal (dictGet d "type") = some "Point" →
        dictGet d "coordinates" = some (.jarr (c0 :: c1 :: cs)) →
        geojson_to_wkt (some d) = .ok (some (canonicalPointText (pyStr c0) (pyStr c1))))
  ∧ (∀ (d : List (String × JVal)) (ps : List (List (List (String × String)))),
        strVal (dictGet d "type") = some "MultiPolygon" →
        dictGet d "coordinates" = some (mpEncodeNum ps) →
        geojson_to_wkt (some d) = .ok (some (canonicalMPolyText ps)))
  ∧ geojson_to_wkt none = .ok none
  ∧ (∀ d : List (String × JVal),
        ¬ strVal (dictGet d "type") = some "Point" →
        ¬ strVal (dictGet d "type") = some "MultiPolygon" →
        geojson_to_wkt (some d) = .ok none) := by
  refine ⟨fun d c0 c1 cs ht hc => geojson_to_wkt_point d c0 c1 cs ht hc,
    fun d ps ht hc => ?_, rfl, fun d hp hm => geojson_to_wkt_other d hp hm⟩
  rw [geojson_to_wkt_mp d _ ht hc]
  simp [List.map_map, Function.comp_def, pyStr]

/-- C6 witness: the three branches at concrete inputs. -/
theorem c6_witness :
    geojson_to_wkt (pointGeom [.jnum "-114.05", .jnum "51.05"])
        = .ok (some (canonicalPointText "-114.05" "51.05"))
    ∧ geojson_to_wkt (mpGeom [[[(.jnum "0", .jnum "1", []), (.jnum "2", .jnum "3", [])]]])
        = .ok (some (canonicalMPolyText [[[("0", "1"), ("2", "3")]]]))
    ∧ geojson_to_wkt none = .ok none
    ∧ geojson_to_wkt (some [("type", .jstr "LineString")]) = .ok none := by
  refine ⟨c6_normalizer_cases.1
      [("type", .jstr "Point"), ("coordinates", .jarr [.jnum "-114.05", .jnum "51.05"])]
      (.jnum "-114.05") (.jnum "51.05") [] (by rfl) (by rfl), ?_,
    c6_normalizer_cases.2.2.1,
    c6_normalizer_cases.2.2.2 [("type", .jstr "LineString")]
      (by intro h; simp [dictGet, strVal] at h)
      (by intro h; simp [dictGet, strVal] at h)⟩
  exact c6_normalizer_cases.2.1
    [("type", .jstr "MultiPolygon"),
      ("coordinates", mpEncodeNum [[[("0", "1"), ("2", "3")]]])]
    [[[("0", "1"), ("2", "3")]]] (by rfl) (by rfl)

/-- C9: coordinate components beyond the first two are silently dropped: a
`Point` or `MultiPolygon` geometry with extra components per point
normalizes to exactly the same text as the geometry truncated to its first
two components per point. -/
theorem c9_extra_components_dropped :
    (∀ (c0 c1 : JVal) (ext : List JVal),
        geojson_to_wkt (pointGeom (c0 :: c1 :: ext))
          = geojson_to_wkt (pointGeom [c0, c1]))
  ∧ (∀ ps : List (List (List (JVal × JVal × List JVal))),
        geojson_to_wkt (mpGeom ps)
          = geojson_to_wkt (mpGeom (ps.map (fun poly => poly.map (fun ring =>
              ring.map (fun t => (t.1, t.2.1, ([] : List JVal)))))))) := by
  constructor
  · intro c0 c1 ext
    have h1 := geojson_to_wkt_point
      [("type", .jstr "Point"), ("coordinates", .jarr (c0 :: c1 :: ext))]
      c0 c1 ext (by rfl) (by rfl)
    have h2 := geojson_to_wkt_point
      [("type", .jstr "Point"), ("coordinates", .jarr [c0, c1])]
      c0 c1 [] (by rfl) (by rfl)
    show geojson_to_wkt (some [("type", .jstr "Point"),
        ("coordinates", .jarr (c0 :: c1 :: ext))])
      = geojson_to_wkt (some [("type", .jstr "Point"),
        ("coordinates", .jarr [c0, c1])])
    rw [h1, h2]
  · intro ps
    have h1 := geojson_to_wkt_mp
      [("type", .jstr "MultiPolygon"), ("coordinates", mpEncode ps)]
      ps (by rfl) (by rfl)
    have h2 := geojson_to_wkt_mp
      [("type", .jstr "MultiPolygon"),
        ("coordinates", mpEncode (ps.map (fun poly => poly.map (fun ring =>
          ring.map (fun t => (t.1, t.2.1, ([] : List JVal)))))))]
      (ps.map (fun poly => poly.map (fun ring =>
        ring.map (fun t => (t.1, t.2.1, ([] : List JVal))))))
      (by rfl) (by rfl)
    show geojson_to_wkt (some [("type", .jstr "MultiPolygon"),
        ("coordinates", mpEncode ps)])
      = geojson_to_wkt (some [("type", .jstr "MultiPolygon"),
        ("coordinates", mpEncode (ps.map (fun poly => poly.map (fun ring =>
          ring.map (fun t => (t.1, t.2.1, ([] : List JVal)))))))])
    rw [h1, h2]
    simp [List.map_map, Function.comp_def]

/-- Python `record[k] = v` on a dict: overwrite in place when the key is
present, append otherwise. -/
def setKey (d : List (String × JVal)) (k : String) (v : JVal) : List (String × JVal) :=
  if d.any (fun kv => kv.1 == k) then
    d.map (fun kv => if kv.1 == k then (kv.1, v) else kv)
  else d ++ [(k, v)]

/-- The `None`-or-text result of `geojson_to_wkt` stored back into a record. -/
def optStrVal : Option String → JVal
  | some s => .jstr s
  | none => .jnull

/-- The per-value conversion in the plain-record branch of `json_to_dataframe`
(`etl.py` lines 148-155): dict values under the key `multipolygon` go through
`geojson_to_wkt`, any other dict or list value is serialized with
`json.dumps`, and scalar values pass through unchanged. -/
def flattenValue (k : String) (v : JVal) : Except String JVal :=
  match v with
  | .jobj vd =>
    if k == "multipolygon" then do
      let w ← geojson_to_wkt (some vd)
      return optStrVal w
    else .ok (.jstr (jsonDumps (.jobj vd)))
  | .jarr xs => .ok (.jstr (jsonDumps (.jarr xs)))
  | other => .ok other

/-- The `for key, value in record.items()` loop of the plain-record branch,
aborting at the first raised exception. -/
def flattenFields : List (String × JVal) → Except String (List (String × JVal))
  | [] => .ok []
  | kv :: fs => do
    let v2 ← flattenValue kv.1 kv.2
    let rest ← flattenFields fs
    return (kv.1, v2) :: rest

/-- One iteration of the `json_to_dataframe` loop (`etl.py` lines 138-156).
A GeoJSON feature (a dict with a `properties` key) flattens to its
properties, with a `geometry` attribute added when a truthy geometry is
present; a plain dict is copied with nested values serialized.  Non-dict
items and non-dict `properties` values raise, as in Python. -/
def flattenItem : JVal → Except String (List (String × JVal))
  | .jobj fields =>
    match dictGet fields "properties" with
    | some props =>
      match props with
      | .jobj pfs =>
        match dictGet fields "geometry" with
        | some g =>
          if truthy g then
            match g with
            | .jobj gfs => do
              let w ← geojson_to_wkt (some gfs)
              return setKey pfs "geometry" (optStrVal w)
            | _ => .error "AttributeError"
          else .ok pfs
        | none => .ok pfs
      | _ => .error "AttributeError"
    | none => flattenFields fields
  | _ => .error "TypeError"

/-- Model of `json_to_dataframe` (`etl.py` lines 133-159): the list of flat records
built by the loop, one per input item, in input order; `pd.DataFrame`
then materializes one row per record.  Empty input yields the empty list. -/
def json_to_dataframe : List JVal → Except String (List (List (String × JVal)))
  | [] => .ok []
  | item :: rest => do
    let r ← flattenItem item
    let rs ← json_to_dataframe rest
    return r :: rs

/-- A well-formed GeoJSON coordinate point: an array of at least two
components. -/
def wfPt : JVal → Bool
  | .jarr (_ :: _ :: _) => true
  | _ => false

/-- A well-formed ring: an array of well-formed points. -/
def wfRing : JVal → Bool
  | .jarr pts => pts.all wfPt
  | _ => false

/-- A well-formed polygon: an array of well-formed rings. -/
def wfPoly : JVal → Bool
  | .jarr rings => rings.all wfRing
  | _ => false

/-- A geometry dict on which `geojson_to_wkt` does not raise: a `Point` needs
an array of at least two coordinates, a `MultiPolygon` a well-nested
coordinate array; any other kind falls through to `return None` safely. -/
def wfGeomObj (d : List (String × JVal)) : Bool :=
  match strVal (dictGet d "type") with
  | some "Point" =>
    (match dictGet d "coordinates" with
      | some c => wfPt c
      | none => false)
  | some "MultiPolygon" =>
    (match dictGet d "coordinates" with
      | some (.jarr polys) => polys.all wfPoly
      | _ => false)
  | _ => true

/-- A record value on which `flattenValue` does not raise. -/
def wfVal (k : String) (v : JVal) : Bool :=
  match v with
  | .jobj vd => if k == "multipolygon" then wfGeomObj vd else true
  | _ => true

/-- An input item on which `flattenItem` does not raise: a dict whose
`properties` value (when present) is a dict, whose truthy `geometry` value
(when present) is a well-formed geometry dict, and whose nested plain
values (when no `properties` key exists) are well-formed. -/
def wfItem : JVal → Bool
  | .jobj fields =>
    match dictGet fields "properties" with
    | some (.jobj _) =>
      (match dictGet fields "geometry" with
        | some g =>
          if truthy g then
            (match g with
              | .jobj gd => wfGeomObj gd
              | _ => false)
          else true
        | none => true)
    | some _ => false
    | none => fields.all (fun kv => wfVal kv.1 kv.2)
  | _ => false

theorem exMap_pts_ok (pts : List JVal) (h : pts.all wfPt = true) :
    ∃ ss, exMap wktCoordPair pts = .ok ss := by
  induction pts with
  | nil => exact ⟨[], rfl⟩
  | cons p ps ih =>
    simp only [List.all_cons, Bool.and_eq_true] at h
    obtain ⟨ss, hss⟩ := ih h.2
    have hp := h.1
    cases p with
    | jarr cs =>
      match cs, hp with
      | c0 :: c1 :: cs', _ =>
        refine ⟨(pyStr c0 ++ " " ++ pyStr c1) :: ss, ?_⟩
        simp [exMap, wktCoordPair, hss, ok_bind]
    | jnull => simp [wfPt] at hp
    | jbool b => simp [wfPt] at hp
    | jnum s => simp [wfPt] at hp
    | jstr s => simp [wfPt] at hp
    | jobj fs => simp [wfPt] at hp

theorem exMap_rings_ok (rs : List JVal) (h : rs.all wfRing = true) :
    ∃ ss, exMap wktRing rs = .ok ss := by
  induction rs with
  | nil => exact ⟨[], rfl⟩
  | cons r rest ih =>
    simp only [List.all_cons, Bool.and_eq_true] at h
    obtain ⟨ss, hss⟩ := ih h.2
    have hr := h.1
    cases r with
    | jarr pts =>
      obtain ⟨ps, hps⟩ := exMap_pts_ok pts (by simpa [wfRing] using hr)
      refine ⟨("(" ++ String.intercalate ", " ps ++ ")") :: ss, ?_⟩
      simp [exMap, wktRing, hps, hss, ok_bind]
    | jnull => simp [wfRing] at hr
    | jbool b => simp [wfRing] at hr
    | jnum s => simp [wfRing] at hr
    | jstr s => simp [wfRing] at hr
    | jobj fs => simp [wfRing] at hr

theorem exMap_polys_ok (ps : List JVal) (h : ps.all wfPoly = true) :
    ∃ ss, exMap wktPolygon ps = .ok ss := by
  induction ps with
  | nil => exact ⟨[], rfl⟩
  | cons p rest ih =>
    simp only [List.all_cons, Bool.and_eq_true] at h
    obtain ⟨ss, hss⟩ := ih h.2
    have hp := h.1
    cases p with
    | jarr rings =>
      obtain ⟨rs, hrs⟩ := exMap_rings_ok rings (by simpa [wfPoly] using hp)
      refine ⟨("(" ++ String.intercalate ", " rs ++ ")") :: ss, ?_⟩
      simp [exMap, wktPolygon, hrs, hss, ok_bind]
    | jnull => simp [wfPoly] at hp
    | jbool b => simp [wfPoly] at hp
    | jnum s => simp [wfPoly] at hp
    | jstr s => simp [wfPoly] at hp
    | jobj fs => simp [wfPoly] at hp

theorem geojson_to_wkt_ok_of_wf (d : List (String × JVal))
    (h : wfGeomObj d = true) : ∃ w, geojson_to_wkt (some d) = .ok w := by
  by_cases he : d.isEmpty
  · exact ⟨none, by simp [geojson_to_wkt, he]⟩
  · unfold wfGeomObj at h
    by_cases hp : strVal (dictGet d "type") = some "Point"
    · rw [hp] at h
      cases hc : dictGet d "coordinates" with
      | none => rw [hc] at h; simp at h
      | some c =>
        rw [hc] at h
        cases c with
        | jarr cs =>
          match cs, h with
          | c0 :: c1 :: cs', _ =>
            refine ⟨some ("POINT(" ++ pyStr c0 ++ " " ++ pyStr c1 ++ ")"), ?_⟩
            simp [geojson_to_wkt, he, hp, hc]
        | jnull => simp [wfPt] at h
        | jbool b => simp [wfPt] at h
        | jnum s => simp [wfPt] at h
        | jstr s => simp [wfPt] at h
        | jobj fs => simp [wfPt] at h
    · by_cases hm : strVal (dictGet d "type") = some "MultiPolygon"
      · rw [hm] at h
        cases hc : dictGet d "coordinates" with
        | none => rw [hc] at h; simp at h
        | some c =>
          rw [hc] at h
          cases c with
          | jarr polys =>
            obtain ⟨ss, hss⟩ := exMap_polys_ok polys (by simpa using h)
            refine ⟨some ("MULTIPOLYGON(" ++ String.intercalate ", " ss ++ ")"), ?_⟩
            simp [geojson_to_wkt, he, hp, hm, hc, hss]
          | jnull => simp at h
          | jbool b => simp at h
          | jnum s => simp at h
          | jstr s => simp at h
          | jobj fs => simp at h
      · exact ⟨none, geojson_to_wkt_other d hp hm⟩

theorem flattenValue_ok (k : String) (v : JVal) (h : wfVal k v = true) :
    ∃ v2, flattenValue k v = .ok v2 := by
  cases v with
  | jobj vd =>
    by_cases hk : (k == "multipolygon") = true
    · rw [wfVal, hk] at h
      simp at h
      obtain ⟨w, hw⟩ := geojson_to_wkt_ok_of_wf vd h
      refine ⟨optStrVal w, ?_⟩
      simp [flattenValue, hk, hw, ok_bind]
    · refine ⟨.jstr (jsonDumps (.jobj vd)), ?_⟩
      simp [flattenValue, hk]
  | jnull => exact ⟨_, rfl⟩
  | jbool b => exact ⟨_, rfl⟩
  | jnum s => exact ⟨_, rfl⟩
  | jstr s => exact ⟨_, rfl⟩
  | jarr xs => exact ⟨_, rfl⟩

theorem flattenFields_ok (fs : List (String × JVal))
    (h : fs.all (fun kv => wfVal kv.1 kv.2) = true) :
    ∃ rs, flattenFields fs = .ok rs := by
  induction fs with
  | nil => exact ⟨[], rfl⟩
  | cons kv rest ih =>
    simp only [List.all_cons, Bool.and_eq_true] at h
    obtain ⟨v2, hv2⟩ := flattenValue_ok kv.1 kv.2 h.1
    obtain ⟨rs, hrs⟩ := ih h.2
    refine ⟨(kv.1, v2) :: rs, ?_⟩
    simp [flattenFields, hv2, hrs, ok_bind]

theorem flattenItem_ok (item : JVal) (h : wfItem item = true) :
    ∃ r, flattenItem item = .ok r := by
  cases item with
  | jobj fields =>
    cases hps : dictGet fields "properties" with
    | none =>
      obtain ⟨rs, hrs⟩ := flattenFields_ok fields
        (by simpa [wfItem, hps] using h)
      exact ⟨rs, by simp [flattenItem, hps, hrs]⟩
    | some props =>
      cases props with
      | jobj pfs =>
        cases hg : dictGet fields "geometry" with
        | none => exact ⟨pfs, by simp [flattenItem, hps, hg]⟩
        | some g =>
          by_cases ht : truthy g = true
          · cases g with
            | jobj gd =>
              obtain ⟨w, hw⟩ := geojson_to_wkt_ok_of_wf gd
                (by simpa [wfItem, hps, hg, ht] using h)
              refine ⟨setKey pfs "geometry" (optStrVal w), ?_⟩
              simp [flattenItem, hps, hg, ht, hw, ok_bind]
            | jnull => simp [truthy] at ht
            | jbool b => simp [wfItem, hps, hg, ht] at h
            | jnum s => simp [wfItem, hps, hg, ht] at h
            | jstr s => simp [wfItem, hps, hg, ht] at h
            | jarr xs => simp [wfItem, hps, hg, ht] at h
          · refine ⟨pfs, ?_⟩
            simp only [flattenItem, hps, hg]
            rw [if_neg ht]
      | jnull => simp [wfItem, hps] at h
      | jbool b => simp [wfItem, hps] at h
      | jnum s => simp [wfItem, hps] at h
      | jstr s => simp [wfItem, hps] at h
      | jarr xs => simp [wfItem, hps] at h
  | jnull => simp [wfItem] at h
  | jbool b => simp [wfItem] at h
  | jnum s => simp [wfItem] at h
  | jstr s => simp [wfItem] at h
  | jarr xs => simp [wfItem] at h

/-- C7 (amended): the Record Flattener is total on well-formed inputs — any
sequence of records whose geometry-bearing values are well-formed flattens
without error, and the empty input yields the empty sequence — but it is
not total on arbitrary inputs: a malformed geometry raises (see the
counterexample). -/
theorem c7_flatten_total_on_wf :
    (∀ data : List JVal, data.all wfItem = true →
        ∃ rs, json_to_dataframe data = .ok rs)
  ∧ json_to_dataframe [] = .ok [] := by
  refine ⟨fun data h => ?_, rfl⟩
  induction data with
  | nil => exact ⟨[], rfl⟩
  | cons item rest ih =>
    simp only [List.all_cons, Bool.and_eq_true] at h
    obtain ⟨r, hr⟩ := flattenItem_ok item h.1
    obtain ⟨rs, hrs⟩ := ih h.2
    refine ⟨r :: rs, ?_⟩
    simp [json_to_dataframe, hr, hrs, ok_bind]

/-- C7 counterexample: a single GeoJSON feature whose `Point` geometry has an
empty coordinate array makes `json_to_dataframe` raise an `IndexError`
(`coords[0]` in `geojson_to_wkt`), refuting "flatten never fails". -/
theorem c7_counterexample :
    json_to_dataframe
      [.jobj [("properties", .jobj []),
        ("geometry", .jobj [("type", .jstr "Point"), ("coordinates", .jarr [])])]]
      = .error "IndexError" := by rfl

/-- C7 witness: the amended totality applied to a concrete well-formed batch. -/
theorem c7_witness :
    (∃ rs, json_to_dataframe
      [.jobj [("properties", .jobj [("id", .jnum "7")]),
        ("geometry", .jobj [("type", .jstr "Point"),
          ("coordinates", .jarr [.jnum "1", .jnum "2"])])]] = .ok rs)
    ∧ json_to_dataframe [] = .ok [] :=
  ⟨c7_flatten_total_on_wf.1 _ (by rfl), c7_flatten_total_on_wf.2⟩

/-- C10: whenever the Record Flattener succeeds it produces exactly one flat
mapping per input record, in input order: the output length equals the
input length and the i-th output is the flattening of the i-th input. -/
theorem c10_flatten_length_order (data : List JVal)
    (rs : List (List (String × JVal))) (h : json_to_dataframe data = .ok rs) :
    rs.length = data.length ∧
    ∀ (i : Nat) (hd : i < data.length) (hr : i < rs.length),
      flattenItem (data.get ⟨i, hd⟩) = .ok (rs.get ⟨i, hr⟩) := by
  induction data generalizing rs with
  | nil =>
    cases h
    exact ⟨rfl, fun i hd _ => absurd hd (Nat.not_lt_zero i)⟩
  | cons item rest ih =>
    cases hr : flattenItem item with
    | error e => rw [json_to_dataframe, hr] at h; cases h
    | ok r =>
      cases hrest : json_to_dataframe rest with
      | error e =>
        rw [json_to_dataframe, hr, hrest] at h; cases h
      | ok rs' =>
        rw [json_to_dataframe, hr, hrest] at h
        cases h
        obtain ⟨hlen, hidx⟩ := ih rs' hrest
        refine ⟨by simp [hlen], fun i hd hri => ?_⟩
        cases i with
        | zero => simpa using hr
        | succ j =>
          exact hidx j (Nat.lt_of_succ_lt_succ hd) (Nat.lt_of_succ_lt_succ hri)

/-- C10 witness: length preservation at a concrete two-record input. -/
theorem c10_witness :
    (([[("a", JVal.jnum "1")], [("b", JVal.jstr "x")]] :
        List (List (String × JVal))).length
      = ([.jobj [("a", .jnum "1")], .jobj [("b", .jstr "x")]] : List JVal).length) :=
  (c10_flatten_length_order
    [.jobj [("a", .jnum "1")], .jobj [("b", .jstr "x")]]
    [[("a", JVal.jnum "1")], [("b", JVal.jstr "x")]] (by rfl)).1

/-- Outcome of one HTTP round-trip inside `fetch_data_from_api`
(`etl.py` lines 62-83): the request raises a `RequestException`
(unreachable source), the body fails to parse as JSON (`response.json()`
raises the requests `JSONDecodeError`, a `RequestException` subclass), or
a JSON body is obtained. -/
inductive FetchOutcome where
  | netError
  | badJson
  | payload (body : JVal)

/-- Model of `fetch_data_from_api`: both failure modes are caught by the
`except requests.exceptions.RequestException` handler, which returns the
empty list; a GeoJSON dict yields its `features` value, any other body is
returned as-is. -/
def fetch_data_from_api : FetchOutcome → JVal
  | .netError => .jarr []
  | .badJson => .jarr []
  | .payload body =>
    match body with
    | .jobj fields =>
      (match dictGet fields "features" with
        | some fs => fs
        | none => .jobj fields)
    | other => other

/-- The run's independent per-source fetches (`main` fetches each source in
turn; no fetch result feeds another fetch). -/
def runSources (outs : List FetchOutcome) : List JVal :=
  outs.map fetch_data_from_api

/-- C8: a fetch whose source is unreachable or whose payload fails to parse
returns the empty batch instead of propagating the error, and in a run over
several sources the failed source contributes exactly an empty batch while
every other source's result is unchanged. -/
theorem c8_fetch_failure_empty_batch (o : FetchOutcome)
    (h : o = FetchOutcome.netError ∨ o = FetchOutcome.badJson) :
    fetch_data_from_api o = .jarr [] ∧
    ∀ pre post : List FetchOutcome,
      runSources (pre ++ o :: post)
        = runSources pre ++ .jarr [] :: runSources post := by
  have he : fetch_data_from_api o = .jarr [] := by
    cases h with
    | inl h => rw [h]; rfl
    | inr h => rw [h]; rfl
  exact ⟨he, fun pre post => by simp [runSources, he]⟩

/-- C8 witness: a failing traffic source in the middle of a run yields an
empty batch there and leaves the boundary source's features intact. -/
theorem c8_witness :
    fetch_data_from_api .netError = .jarr [] ∧
    runSources [.payload (.jobj [("features", .jarr [.jnum "1"])]),
        .netError, .badJson]
      = [.jarr [.jnum "1"], .jarr [], .jarr []] := by
  refine ⟨(c8_fetch_failure_empty_batch .netError (Or.inl rfl)).1, ?_⟩
  exact (c8_fetch_failure_empty_batch .netError (Or.inl rfl)).2
    [.payload (.jobj [("features", .jarr [.jnum "1"])])] [.badJson]

/-- A row of `traffic_incidents` as consumed by the join
(`ti.id`, `ti.start_dt::date`, `ti.modified_dt`, `ti.geometry`).
Dates and timestamps are modelled as naturals; geometry is nullable WKT
text, the form the load step stores. -/
structure IncidentRow where
  id : String
  start_date : Nat
  modified_dt : Nat
  geometry : Option String
deriving DecidableEq

/-- A row of `community_boundaries` (`cb.name`, `cb.geometry`). -/
structure DistrictRow where
  name : String
  geometry : Option String
deriving DecidableEq

/-- A row of `weather` (`w.date` plus the three selected metrics). -/
structure WeatherRow where
  date : Nat
  min_temp_c : Option Int
  max_temp_c : Option Int
  total_precip_mm : Option Int
deriving DecidableEq

/-- A row of the `accident_facts` relation, with exactly the columns of the
`INSERT` list in `update_acc_fact_data` (`queries.py` lines 125-134). -/
structure FactRow where
  incident_id : String
  occurred_date : Nat
  modified_dt : Nat
  community_name : Option String
  min_temp_c : Option Int
  max_temp_c : Option Int
  total_precip_mm : Option Int
  geometry : Option String
deriving DecidableEq

/-- SQL `ST_Contains(cb.geometry, ti.geometry)` in the join `ON` clause: the
PostGIS predicate lives outside the repository, so it is a parameter
`contains`; a NULL on either side makes the SQL predicate non-true. -/
def stContainsRow (contains : String → String → Bool)
    (cb : DistrictRow) (ti : IncidentRow) : Bool :=
  match cb.geometry, ti.geometry with
  | some g, some p => contains g p
  | _, _ => false

/-- SQL LEFT JOIN semantics for one left row: one result per matching right
row, or a single NULL row when nothing matches. -/
def leftMatches {α : Type} (p : α → Bool) (xs : List α) : List (Option α) :=
  match xs.filter p with
  | [] => [none]
  | ms => ms.map some

/-- The SELECT list of `update_acc_fact_data` (`queries.py` lines 135-143)
applied to one joined row combination. -/
def mkFact (ti : IncidentRow) (cb : Option DistrictRow) (w : Option WeatherRow) :
    FactRow where
  incident_id := ti.id
  occurred_date := ti.start_date
  modified_dt := ti.modified_dt
  community_name := cb.map (fun c => c.name)
  min_temp_c := w.bind (fun x => x.min_temp_c)
  max_temp_c := w.bind (fun x => x.max_temp_c)
  total_precip_mm := w.bind (fun x => x.total_precip_mm)
  geometry := ti.geometry

/-- All joined rows produced for one incident:
`LEFT JOIN community_boundaries ON ST_Contains(cb.geometry, ti.geometry)`
then `LEFT JOIN weather ON ti.start_dt::date = w.date`
(`queries.py` lines 144-148; the materialized view of `etl.py` lines
248-264 has the same FROM/JOIN structure). -/
def incidentRows (contains : String → String → Bool)
    (cbs : List DistrictRow) (ws : List WeatherRow) (ti : IncidentRow) :
    List FactRow :=
  (leftMatches (fun cb => stContainsRow contains cb ti) cbs).flatMap (fun cb =>
    (leftMatches (fun w => w.date == ti.start_date) ws).map (fun w =>
      mkFact ti cb w))

/-- The full join output of the `SELECT` in `update_acc_fact_data`: the batch
the upsert consumes. -/
def joinSelect (contains : String → String → Bool) (tis : List IncidentRow)
    (cbs : List DistrictRow) (ws : List WeatherRow) : List FactRow :=
  tis.flatMap (incidentRows contains cbs ws)

theorem leftMatches_ne_nil {α : Type} (p : α → Bool) (xs : List α) :
    leftMatches p xs ≠ [] := by
  unfold leftMatches
  cases h : xs.filter p with
  | nil => simp
  | cons m ms => simp

theorem mem_leftMatches {α : Type} (p : α → Bool) (xs : List α) (x : Option α)
    (h : x ∈ leftMatches p xs) :
    (x = none ∧ ∀ y ∈ xs, ¬ p y = true) ∨
    (∃ y ∈ xs, p y = true ∧ x = some y) := by
  unfold leftMatches at h
  cases hf : xs.filter p with
  | nil =>
    rw [hf] at h
    simp only [List.mem_singleton] at h
    exact Or.inl ⟨h, List.filter_eq_nil_iff.mp hf⟩
  | cons m ms =>
    rw [hf] at h
    simp only [List.mem_map] at h
    obtain ⟨y, hy, hxy⟩ := h
    have : y ∈ xs.filter p := by rw [hf]; exact hy
    obtain ⟨hmem, hp⟩ := List.mem_filter.mp this
    exact Or.inr ⟨y, hmem, hp, hxy.symm⟩

theorem leftMatches_of_mem {α : Type} (p : α → Bool) (xs : List α) (y : α)
    (hy : y ∈ xs) (hp : p y = true) : some y ∈ leftMatches p xs := by
  unfold leftMatches
  have : y ∈ xs.filter p := List.mem_filter.mpr ⟨hy, hp⟩
  cases hf : xs.filter p with
  | nil => rw [hf] at this; cases this
  | cons m ms =>
    rw [hf] at this
    exact List.mem_map.mpr ⟨y, this, rfl⟩

theorem leftMatches_singleton {α : Type} (p : α → Bool) (xs : List α)
    (h : (xs.filter p).length ≤ 1) : (leftMatches p xs).length = 1 := by
  unfold leftMatches
  cases hf : xs.filter p with
  | nil => rfl
  | cons m ms =>
    rw [hf] at h
    simp only [List.length_cons] at h
    have : ms = [] := List.eq_nil_of_length_eq_zero (by omega)
    subst this
    rfl

theorem incidentRows_mem (contains : String → String → Bool)
    (cbs : List DistrictRow) (ws : List WeatherRow) (ti : IncidentRow)
    (f : FactRow) (hf : f ∈ incidentRows contains cbs ws ti) :
    f.incident_id = ti.id ∧
    ((f.community_name = none ∧
        ∀ cb ∈ cbs, ¬ stContainsRow contains cb ti = true) ∨
      (∃ cb ∈ cbs, stContainsRow contains cb ti = true ∧
        f.community_name = some cb.name)) := by
  unfold incidentRows at hf
  rw [List.mem_flatMap] at hf
  obtain ⟨cb, hcb, hf⟩ := hf
  rw [List.mem_map] at hf
  obtain ⟨w, _, hw⟩ := hf
  subst hw
  refine ⟨rfl, ?_⟩
  rcases mem_leftMatches _ _ _ hcb with ⟨hnone, hall⟩ | ⟨y, hy, hp, hsome⟩
  · subst hnone
    exact Or.inl ⟨rfl, hall⟩
  · subst hsome
    exact Or.inr ⟨y, hy, hp, rfl⟩

theorem incidentRows_unique (contains : String → String → Bool)
    (cbs : List DistrictRow) (ws : List WeatherRow) (ti : IncidentRow)
    (hd : (cbs.filter (fun cb => stContainsRow contains cb ti)).length ≤ 1)
    (hw : (ws.filter (fun w => w.date == ti.start_date)).length ≤ 1) :
    (incidentRows contains cbs ws ti).length = 1 := by
  unfold incidentRows
  rw [List.length_flatMap]
  have h1 := leftMatches_singleton _ _ hd
  have h2 := leftMatches_singleton (fun w => w.date == ti.start_date) ws hw
  cases hm : leftMatches (fun cb => stContainsRow contains cb ti) cbs with
  | nil => rw [hm] at h1; cases h1
  | cons c cs =>
    rw [hm] at h1
    simp only [List.length_cons] at h1
    have : cs = [] := List.eq_nil_of_length_eq_zero (by omega)
    subst this
    simp [h2]

theorem joinSelect_length (contains : String → String → Bool)
    (tis : List IncidentRow) (cbs : List DistrictRow) (ws : List WeatherRow)
    (hd : ∀ ti ∈ tis,
      (cbs.filter (fun cb => stContainsRow contains cb ti)).length ≤ 1)
    (hw : ∀ ti ∈ tis,
      (ws.filter (fun w => w.date == ti.start_date)).length ≤ 1) :
    (joinSelect contains tis cbs ws).length = tis.length := by
  induction tis with
  | nil => rfl
  | cons ti rest ih =>
    unfold joinSelect
    rw [List.flatMap_cons, List.length_append,
      incidentRows_unique contains cbs ws ti
        (hd ti (List.mem_cons_self ti rest)) (hw ti (List.mem_cons_self ti rest))]
    have h2 := ih (fun t ht => hd t (List.mem_cons_of_mem ti ht))
      (fun t ht => hw t (List.mem_cons_of_mem ti ht))
    unfold joinSelect at h2
    rw [h2, List.length_cons]
    omega

/-- C4 counterexample: one incident whose point is contained in two
districts produces two join rows, not one — the output row count exceeds
the incident count. -/
theorem c4_counterexample :
    (joinSelect (fun _ _ => true)
        [⟨"i1", 0, 0, some "P"⟩]
        [⟨"A", some "GA"⟩, ⟨"B", some "GB"⟩]
        []).length ≠
      ([⟨"i1", 0, 0, some "P"⟩] : List IncidentRow).length := by decide

/-- C4 (amended): every joined row originates from an incident and carries a
null district exactly when no district contains it (otherwise the name of
a containing district); and the output row count equals the incident row
count provided each incident is contained in at most one district and
matches at most one weather date — with overlapping districts or duplicate
weather dates an incident instead yields one row per match combination. -/
theorem c4_outer_join_completeness (contains : String → String → Bool)
    (tis : List IncidentRow) (cbs : List DistrictRow) (ws : List WeatherRow)
    (hd : ∀ ti ∈ tis,
      (cbs.filter (fun cb => stContainsRow contains cb ti)).length ≤ 1)
    (hw : ∀ ti ∈ tis,
      (ws.filter (fun w => w.date == ti.start_date)).length ≤ 1) :
    (joinSelect contains tis cbs ws).length = tis.length ∧
    ∀ f ∈ joinSelect contains tis cbs ws, ∃ ti ∈ tis,
      f.incident_id = ti.id ∧
      ((f.community_name = none ∧
          ∀ cb ∈ cbs, ¬ stContainsRow contains cb ti = true) ∨
        (∃ cb ∈ cbs, stContainsRow contains cb ti = true ∧
          f.community_name = some cb.name)) := by
  constructor
  · exact joinSelect_length contains tis cbs ws hd hw
  · intro f hf
    unfold joinSelect at hf
    rw [List.mem_flatMap] at hf
    obtain ⟨ti, hti, hfrows⟩ := hf
    exact ⟨ti, hti, incidentRows_mem contains cbs ws ti f hfrows⟩

/-- C4 witness: a batch where each incident matches at most one district and
one weather date joins to exactly one row per incident. -/
theorem c4_witness :
    (joinSelect (fun g p => g == "GA" && p == "P")
        [⟨"i1", 3, 0, some "P"⟩, ⟨"i2", 4, 0, none⟩]
        [⟨"A", some "GA"⟩, ⟨"B", some "GB"⟩]
        [⟨3, some 1, some 2, some 0⟩]).length
      = ([⟨"i1", 3, 0, some "P"⟩, ⟨"i2", 4, 0, none⟩] : List IncidentRow).length :=
  (c4_outer_join_completeness (fun g p => g == "GA" && p == "P")
    [⟨"i1", 3, 0, some "P"⟩, ⟨"i2", 4, 0, none⟩]
    [⟨"A", some "GA"⟩, ⟨"B", some "GB"⟩]
    [⟨3, some 1, some 2, some 0⟩]
    (by decide) (by decide)).1

/-- C5 counterexample: with two overlapping districts (listed as "B" then
"A") containing one incident's point, the join emits two rows carrying both
district names, in relation order — not exactly one district, and not the
lexical-first name "A". -/
theorem c5_counterexample :
    (joinSelect (fun _ _ => true)
        [⟨"i1", 0, 0, some "P"⟩]
        [⟨"B", some "GB"⟩, ⟨"A", some "GA"⟩]
        []).map (fun f => f.community_name)
      = [some "B", some "A"]
    ∧ ("B" : String) ≠ "A" := by constructor <;> decide

/-- C5 (amended): an incident contained in no district joins with a null
district name; an incident contained in one or more districts joins with
one row per containing district (every containing district's name appears
in the output), with no lexical-order tie-break applied. -/
theorem c5_district_policy :
    (∀ (contains : String → String → Bool) (tis : List IncidentRow)
        (cbs : List DistrictRow) (ws : List WeatherRow),
      (∀ ti ∈ tis, ∀ cb ∈ cbs, ¬ stContainsRow contains cb ti = true) →
      ∀ f ∈ joinSelect contains tis cbs ws, f.community_name = none)
  ∧ (∀ (contains : String → String → Bool) (ti : IncidentRow)
        (cbs : List DistrictRow) (ws : List WeatherRow) (cb : DistrictRow),
      cb ∈ cbs → stContainsRow contains cb ti = true →
      some cb.name ∈ (joinSelect contains [ti] cbs ws).map
        (fun f => f.community_name)) := by
  constructor
  · intro contains tis cbs ws hnone f hf
    unfold joinSelect at hf
    rw [List.mem_flatMap] at hf
    obtain ⟨ti, hti, hfrows⟩ := hf
    rcases (incidentRows_mem contains cbs ws ti f hfrows).2 with
      ⟨hn, _⟩ | ⟨cb, hcb, hp, _⟩
    · exact hn
    · exact absurd hp (hnone ti hti cb hcb)
  · intro contains ti cbs ws cb hcb hp
    have hmem : some cb ∈ leftMatches (fun c => stContainsRow contains c ti) cbs :=
      leftMatches_of_mem _ _ cb hcb hp
    cases hws : leftMatches (fun w => w.date == ti.start_date) ws with
    | nil => exact absurd hws (leftMatches_ne_nil _ _)
    | cons w rest =>
      rw [List.mem_map]
      refine ⟨mkFact ti (some cb) w, ?_, rfl⟩
      unfold joinSelect
      rw [List.mem_flatMap]
      refine ⟨ti, List.mem_cons_self ti [], ?_⟩
      unfold incidentRows
      rw [List.mem_flatMap]
      refine ⟨some cb, hmem, ?_⟩
      rw [List.mem_map]
      exact ⟨w, by rw [hws]; exact List.mem_cons_self w rest, rfl⟩

/-- C5 witness: both amended clauses at concrete inputs — an uncontained
incident gets a null district, and both overlapping districts appear. -/
theorem c5_witness :
    (∀ f ∈ joinSelect (fun _ _ => false)
        [⟨"i1", 0, 0, some "P"⟩] [⟨"A", some "GA"⟩] [],
      f.community_name = none)
    ∧ some "B" ∈ (joinSelect (fun _ _ => true)
        [⟨"i1", 0, 0, some "P"⟩]
        [⟨"B", some "GB"⟩, ⟨"A", some "GA"⟩] []).map
          (fun f => f.community_name) :=
  ⟨c5_district_policy.1 (fun _ _ => false) [⟨"i1", 0, 0, some "P"⟩]
      [⟨"A", some "GA"⟩] [] (by decide),
    c5_district_policy.2 (fun _ _ => true) ⟨"i1", 0, 0, some "P"⟩
      [⟨"B", some "GB"⟩, ⟨"A", some "GA"⟩] [] ⟨"B", some "GB"⟩
      (by decide) (by decide)⟩

/-- The upsert statement executed by `update_accident_analysis_table`
(`queries.py` lines 124-157): `INSERT ... ON CONFLICT (incident_id) DO
UPDATE SET` every non-key column from the incoming row, which replaces the
conflicting row by the incoming row.  The recency guard
`WHERE accident_facts.modified_dt < EXCLUDED.modified_dt` in the source
sits after the statement's terminating semicolon (line 158), so it is not
part of the executed upsert: the update is unconditional.  (The orphaned
`WHERE` line additionally makes the full script unparseable SQL, and
the `CREATE TABLE` of lines 94-122 never declares the `geometry` column
the INSERT targets; this model keeps the statement's relational meaning up
to its semicolon.) -/
def upsertRow (facts : List FactRow) (r : FactRow) : List FactRow :=
  if facts.any (fun f => f.incident_id == r.incident_id) then
    facts.map (fun f => if f.incident_id == r.incident_id then r else f)
  else facts ++ [r]

/-- One synchronizer invocation: the joined batch rows applied in order. -/
def sync (facts : List FactRow) (batch : List FactRow) : List FactRow :=
  batch.foldl upsertRow facts

/-- Modelled from the spec (section 4.4) and the orphaned guard of
`queries.py` line 158: the intended recency-guarded upsert, updating a
conflicting row only when the incoming last-modified timestamp is strictly
greater than the stored one. -/
def upsertRowGuarded (facts : List FactRow) (r : FactRow) : List FactRow :=
  if facts.any (fun f => f.incident_id == r.incident_id) then
    facts.map (fun f =>
      if f.incident_id == r.incident_id && decide (f.modified_dt < r.modified_dt)
      then r else f)
  else facts ++ [r]

/-- The intended synchronizer built on the guarded upsert. -/
def syncGuarded (facts : List FactRow) (batch : List FactRow) : List FactRow :=
  batch.foldl upsertRowGuarded facts

theorem sync_cons (facts : List FactRow) (r : FactRow) (batch : List FactRow) :
    sync facts (r :: batch) = sync (upsertRow facts r) batch := rfl

/-- C1: the executed upsert applies a row whose last-modified timestamp is
NOT strictly newer than the stored one: with a stored fact at timestamp 5,
an incoming row for the same incident at timestamp 3 replaces the fact
(erasing its district and weather attributes), where the claim requires
the fact to stay unchanged.  The intended guarded upsert, by contrast,
discards the stale row. -/
theorem c1_stale_overwrite_eval :
    upsertRow
        [{ incident_id := "i1", occurred_date := 10, modified_dt := 5,
           community_name := some "A", min_temp_c := some 1,
           max_temp_c := some 2, total_precip_mm := some 3,
           geometry := some "G1" }]
        { incident_id := "i1", occurred_date := 10, modified_dt := 3,
          community_name := none, min_temp_c := none, max_temp_c := none,
          total_precip_mm := none, geometry := some "G2" }
      = [{ incident_id := "i1", occurred_date := 10, modified_dt := 3,
           community_name := none, min_temp_c := none, max_temp_c := none,
           total_precip_mm := none, geometry := some "G2" }]
    ∧ (3 : Nat) ≤ 5
    ∧ ([{ incident_id := "i1", occurred_date := 10, modified_dt := 3,
          community_name := none, min_temp_c := none, max_temp_c := none,
          total_precip_mm := none, geometry := some "G2" }] : List FactRow)
        ≠ [{ incident_id := "i1", occurred_date := 10, modified_dt := 5,
             community_name := some "A", min_temp_c := some 1,
             max_temp_c := some 2, total_precip_mm := some 3,
             geometry := some "G1" }]
    ∧ upsertRowGuarded
        [{ incident_id := "i1", occurred_date := 10, modified_dt := 5,
           community_name := some "A", min_temp_c := some 1,
           max_temp_c := some 2, total_precip_mm := some 3,
           geometry := some "G1" }]
        { incident_id := "i1", occurred_date := 10, modified_dt := 3,
          community_name := none, min_temp_c := none, max_temp_c := none,
          total_precip_mm := none, geometry := some "G2" }
      = [{ incident_id := "i1", occurred_date := 10, modified_dt := 5,
           community_name := some "A", min_temp_c := some 1,
           max_temp_c := some 2, total_precip_mm := some 3,
           geometry := some "G1" }] := by
  refine ⟨by decide, by decide, by decide, by decide⟩

theorem sync_fresh (B : List FactRow) :
    ∀ facts : List FactRow,
      (∀ r ∈ B, ∀ f ∈ facts, f.incident_id ≠ r.incident_id) →
      (B.map (fun r => r.incident_id)).Nodup →
      sync facts B = facts ++ B := by
  induction B with
  | nil => intro facts _ _; simp [sync]
  | cons r rest ih =>
    intro facts hdisj hnd
    rw [List.map_cons, List.nodup_cons] at hnd
    have hany : facts.any (fun f => f.incident_id == r.incident_id) = false := by
      rw [List.any_eq_false]
      intro f hf
      simp only [beq_iff_eq]
      exact hdisj r (List.mem_cons_self r rest) f hf
    have hup : upsertRow facts r = facts ++ [r] := by
      unfold upsertRow
      rw [hany]
      simp
    have hdisj2 : ∀ r2 ∈ rest, ∀ f ∈ facts ++ [r], f.incident_id ≠ r2.incident_id := by
      intro r2 hr2 f hf
      rcases List.mem_append.mp hf with hf | hf
      · exact hdisj r2 (List.mem_cons_of_mem r hr2) f hf
      · rw [List.mem_singleton] at hf
        subst hf
        intro he
        exact hnd.1 (he ▸ List.mem_map_of_mem (fun x => x.incident_id) hr2)
    rw [sync_cons, hup, ih (facts ++ [r]) hdisj2 hnd.2, List.append_assoc]
    rfl

theorem sync_stable (B : List FactRow) :
    ∀ facts : List FactRow,
      (∀ r ∈ B, (∀ f ∈ facts, f.incident_id = r.incident_id → f = r) ∧ r ∈ facts) →
      sync facts B = facts := by
  induction B with
  | nil => intro facts _; rfl
  | cons r rest ih =>
    intro facts h
    have h1 := h r (List.mem_cons_self r rest)
    have hany : facts.any (fun f => f.incident_id == r.incident_id) = true :=
      List.any_eq_true.mpr ⟨r, h1.2, by simp⟩
    have hmap : facts.map
        (fun f => if f.incident_id == r.incident_id then r else f) = facts := by
      have hpt : ∀ f ∈ facts,
          (if f.incident_id == r.incident_id then r else f) = id f := by
        intro f hf
        by_cases hid : f.incident_id = r.incident_id
        · rw [if_pos (by simpa using hid)]
          exact (h1.1 f hf hid).symm
        · rw [if_neg (by simpa using hid)]
          rfl
      rw [List.map_congr_left hpt, List.map_id]
    have hup : upsertRow facts r = facts := by
      unfold upsertRow
      rw [hany, if_pos rfl, hmap]
    rw [sync_cons, hup]
    exact ih facts (fun r2 hr2 => h r2 (List.mem_cons_of_mem r hr2))

/-- C2: the synchronizer is idempotent from the empty Fact relation — for
any batch with pairwise distinct incident identifiers (a valid batch:
duplicate identifiers in one statement would make the SQL upsert itself
fail), applying it twice equals applying it once. -/
theorem c2_sync_idempotent (B : List FactRow)
    (h : (B.map (fun r => r.incident_id)).Nodup) :
    sync (sync [] B) B = sync [] B := by
  have h0 : sync [] B = B := by
    rw [sync_fresh B [] (fun r _ f hf => absurd hf (List.not_mem_nil f)) h]
    rfl
  rw [h0]
  exact sync_stable B B (fun r hr =>
    ⟨fun f hf hid => List.inj_on_of_nodup_map h hf hr hid, hr⟩)

/-- C2 witness: idempotence at a concrete two-row batch. -/
theorem c2_witness :
    sync (sync []
        [{ incident_id := "i1", occurred_date := 1, modified_dt := 5,
           community_name := some "A", min_temp_c := none, max_temp_c := none,
           total_precip_mm := none, geometry := none },
         { incident_id := "i2", occurred_date := 2, modified_dt := 7,
           community_name := none, min_temp_c := some 1, max_temp_c := some 2,
           total_precip_mm := some 0, geometry := some "P" }])
        [{ incident_id := "i1", occurred_date := 1, modified_dt := 5,
           community_name := some "A", min_temp_c := none, max_temp_c := none,
           total_precip_mm := none, geometry := none },
         { incident_id := "i2", occurred_date := 2, modified_dt := 7,
           community_name := none, min_temp_c := some 1, max_temp_c := some 2,
           total_precip_mm := some 0, geometry := some "P" }]
      = sync []
        [{ incident_id := "i1", occurred_date := 1, modified_dt := 5,
           community_name := some "A", min_temp_c := none, max_temp_c := none,
           total_precip_mm := none, geometry := none },
         { incident_id := "i2", occurred_date := 2, modified_dt := 7,
           community_name := none, min_temp_c := some 1, max_temp_c := some 2,
           total_precip_mm := some 0, geometry := some "P" }] :=
  c2_sync_idempotent
    [{ incident_id := "i1", occurred_date := 1, modified_dt := 5,
       community_name := some "A", min_temp_c := none, max_temp_c := none,
       total_precip_mm := none, geometry := none },
     { incident_id := "i2", occurred_date := 2, modified_dt := 7,
       community_name := none, min_temp_c := some 1, max_temp_c := some 2,
       total_precip_mm := some 0, geometry := some "P" }]
    (by decide)

/-- C3: after submitting timestamp 5 and then timestamp 3 for the same
incident, the executed synchronizer stores timestamp 3 — not the maximum
(5) ever submitted, because the unconditional update overwrites newer data
with older data.  The intended guarded synchronizer keeps 5.  (The
at-most-one-row and no-removal parts of the claim do hold of the executed
upsert; the maximum-timestamp invariant is what fails.) -/
theorem c3_recency_not_max_eval :
    (sync (sync []
        [{ incident_id := "i1", occurred_date := 0, modified_dt := 5,
           community_name := none, min_temp_c := none, max_temp_c := none,
           total_precip_mm := none, geometry := none }])
        [{ incident_id := "i1", occurred_date := 0, modified_dt := 3,
           community_name := none, min_temp_c := none, max_temp_c := none,
           total_precip_mm := none, geometry := none }]).map
      (fun f => f.modified_dt) = [3]
    ∧ (3 : Nat) ≠ 5
    ∧ (syncGuarded (syncGuarded []
        [{ incident_id := "i1", occurred_date := 0, modified_dt := 5,
           community_name := none, min_temp_c := none, max_temp_c := none,
           total_precip_mm := none, geometry := none }])
        [{ incident_id := "i1", occurred_date := 0, modified_dt := 3,
           community_name := none, min_temp_c := none, max_temp_c := none,
           total_precip_mm := none, geometry := none }]).map
      (fun f => f.modified_dt) = [5] := by
  refine ⟨by decide, by decide, by decide⟩

end ETL
